import Mathlib

/-!
# Verification of the create-cloudflare telemetry reporter

Shallow embedding of `packages/create-cloudflare/src/metrics.ts`,
`packages/create-cloudflare/src/event.ts` and the metrics-config /
sparrow helpers, together with proofs of the specification's testable
properties.

Conventions of the embedding:
* Timestamps (`Date.now()`) are modelled as `Int` milliseconds, passed
  explicitly at each clock read.  Subtraction therefore behaves exactly
  like JavaScript number subtraction (it may be negative), with no
  hidden clamping.
* Random identifiers (`randomUUID()`) are modelled as an explicitly
  supplied `String` argument for each potential generation.
* The file system holds a single metrics-config file; its possible
  observable states are `absent`, `present invalidJson`, or
  `present (validJson c)`.
* Asynchronous interleavings of the wrapped operation and interrupt
  signals are modelled as a schedule: a list of atomic occurrences
  processed in order by the single-threaded event loop.
-/

namespace C3Metrics

/-- The interrupt signals `collectAsyncMetrics` listens for
(`process.on("SIGINT", ...)`, `process.on("SIGTERM", ...)`). -/
inductive Signal where
  | SIGINT
  | SIGTERM
deriving DecidableEq, Repr

def Signal.name : Signal → String
  | .SIGINT => "SIGINT"
  | .SIGTERM => "SIGTERM"

/-- The `c3permission` / `permission` records of the metrics config
file (`metrics-config.ts`, interface `MetricsConfigFile`): `enabled`
plus the `date` the permission was set. -/
structure PermissionRecord where
  enabled : Bool
  date : Int
deriving DecidableEq, Repr

/-- The shape of the metrics config file (`MetricsConfigFile` in
`metrics-config.ts`): optional wrangler permission, optional c3
permission, optional device id. -/
structure MetricsConfigFile where
  permission : Option PermissionRecord := none
  c3permission : Option PermissionRecord := none
  deviceId : Option String := none
deriving DecidableEq, Repr

/-- Raw content of the metrics config file once it exists: either text
that does not parse as the expected JSON, or a valid serialized
`MetricsConfigFile`. -/
inductive RawContent where
  | invalidJson
  | validJson (c : MetricsConfigFile)
deriving DecidableEq, Repr

/-- Observable state of the metrics config file on disk. -/
inductive FileContent where
  | absent
  | present (raw : RawContent)
deriving DecidableEq, Repr

/-- Errors the underlying read path can raise. -/
inductive ReadError where
  | missingFile
  | parseError
deriving DecidableEq, Repr

/-- `readFileSync(getMetricsConfigPath(), "utf8")`: raises when the
file is absent, otherwise returns its raw content. -/
def readFileSync : FileContent → Except ReadError RawContent
  | .absent => .error .missingFile
  | .present raw => .ok raw

/-- `JSON.parse(config, reviver)`: raises on invalid JSON, otherwise
produces the parsed `MetricsConfigFile` (the reviver turning `date`
strings into dates is part of the parse). -/
def parseMetricsJson : RawContent → Except ReadError MetricsConfigFile
  | .invalidJson => .error .parseError
  | .validJson c => .ok c

/-- The body of `readMetricsConfig`'s `try` block: read the file then
parse it; either step can fail. -/
def readMetricsConfigE (fc : FileContent) : Except ReadError MetricsConfigFile :=
  readFileSync fc >>= parseMetricsJson

/-- `readMetricsConfig` (`metrics-config.ts`): try reading and parsing
the config file; any failure is caught and yields the empty record. -/
def readMetricsConfig (fc : FileContent) : MetricsConfigFile :=
  match readMetricsConfigE fc with
  | .ok c => c
  | .error _ => {}

/-- `writeMetricsConfig` (`metrics-config.ts`): serialize the given
config and persist it; afterwards the file holds exactly that record. -/
def writeMetricsConfig (c : MetricsConfigFile) : FileContent :=
  .present (.validJson c)

/-- `getDeviceId` (`metrics-config.ts`): read the config, reuse
`config.deviceId` when present, otherwise use a freshly generated UUID
(`uuid` models this call's `randomUUID()` draw) and persist it.
Returns the id, the resulting file state, and whether a write
occurred. -/
def getDeviceId (uuid : String) (fc : FileContent) : String × FileContent × Bool :=
  let config := readMetricsConfig fc
  let deviceId := config.deviceId.getD uuid
  match config.deviceId with
  | none => (deviceId, writeMetricsConfig { config with deviceId := some deviceId }, true)
  | some _ => (deviceId, fc, false)

/-- `initializeC3Permission(enabled = true)` (`metrics.ts`): a fresh
permission record dated now. -/
def initializeC3Permission (now : Int) (enabled : Bool := true) : PermissionRecord :=
  { enabled := enabled, date := now }

/-- `getC3Permission(config)` (`metrics.ts`): return the stored
`c3permission`; when absent, set it to the default record and persist
the updated config.  The second component is the config written back
(`none` when no write happens). -/
def getC3Permission (now : Int) (config : MetricsConfigFile) :
    PermissionRecord × Option MetricsConfigFile :=
  match config.c3permission with
  | some p => (p, none)
  | none =>
    let p := initializeC3Permission now
    (p, some { config with c3permission := some p })

/-- `updateC3Pemission(enabled)` (`metrics.ts`): read the config; if
`config.c3permission?.enabled === enabled` do nothing, otherwise store
a fresh record dated now.  Returns the resulting file state and
whether a write occurred. -/
def updateC3Pemission (now : Int) (enabled : Bool) (fc : FileContent) :
    FileContent × Bool :=
  let config := readMetricsConfig fc
  match config.c3permission with
  | some p =>
    if p.enabled = enabled then (fc, false)
    else (writeMetricsConfig { config with c3permission := some (initializeC3Permission now enabled) }, true)
  | none =>
    (writeMetricsConfig { config with c3permission := some (initializeC3Permission now enabled) }, true)

/-- The `status` arm of `runTelemetryCommand` (`metrics.ts`): read the
config file, run `getC3Permission` on it (which may lazily initialize
and persist the permission), and log the current enabled flag.
Returns the resulting file state and the reported flag. -/
def runTelemetryStatus (now : Int) (fc : FileContent) : FileContent × Bool :=
  let config := readMetricsConfig fc
  let (telemetry, written) := getC3Permission now config
  match written with
  | none => (fc, telemetry.enabled)
  | some c => (writeMetricsConfig c, telemetry.enabled)

/-! ## Event schema (`event.ts`) -/

/-- The two subjects of the `Event` union in `event.ts`
("c3 session ..." and "c3 prompt ..." names). -/
inductive EventSubject where
  | c3session
  | c3prompt
deriving DecidableEq, Repr

/-- The four lifecycle stages every subject defines. -/
inductive Stage where
  | started
  | completed
  | cancelled
  | errored
deriving DecidableEq, Repr

/-- Whether a stage is terminal (anything but `started`). -/
def Stage.isTerminal : Stage → Bool
  | .started => false
  | _ => true

/-- An event name `"<subject> <stage>"`, e.g. `"c3 session started"`. -/
structure EventName where
  subject : EventSubject
  stage : Stage
deriving DecidableEq, Repr

/-- The `error` object built by the errored branch of
`collectAsyncMetrics`: best-effort `message` and `stack`. -/
structure ErrorShape where
  message : Option String := none
  stack : Option String := none
deriving DecidableEq, Repr

/-- Operating-system info sent with every event
(`{ platform: process.platform, arch: process.arch }`). -/
structure OSInfo where
  platform : String
  arch : String
deriving DecidableEq, Repr

/-- An event's property object.  JavaScript objects are open maps; we
model the union of all fields appearing in the `Event` arms of
`event.ts` plus the ambient fields injected by `sendEvent`, each
optional (`none` = key absent).  Opaque payloads (`args`,
`promptConfig`, `answer`) are modelled as strings. -/
structure EventProperties where
  args : Option String := none
  key : Option String := none
  promptConfig : Option String := none
  answer : Option String := none
  isDefaultValue : Option Bool := none
  durationMs : Option Int := none
  error : Option ErrorShape := none
  signal : Option Signal := none
  sessionId : Option String := none
  os : Option OSInfo := none
  c3Version : Option String := none
deriving DecidableEq, Repr

/-- JavaScript object spread `{...a, ...b}`: keys of `b` override keys
of `a`. -/
def mergeProps (a b : EventProperties) : EventProperties where
  args := b.args <|> a.args
  key := b.key <|> a.key
  promptConfig := b.promptConfig <|> a.promptConfig
  answer := b.answer <|> a.answer
  isDefaultValue := b.isDefaultValue <|> a.isDefaultValue
  durationMs := b.durationMs <|> a.durationMs
  error := b.error <|> a.error
  signal := b.signal <|> a.signal
  sessionId := b.sessionId <|> a.sessionId
  os := b.os <|> a.os
  c3Version := b.c3Version <|> a.c3Version

/-! ## Rejection values and the cancellation race -/

/-- A JavaScript value a promise can reject with, as far as the
reporter inspects it: a `CancelError` (the cancellation marker from
`@cloudflare/cli/error`, constructed here as `new CancelError(signal)`),
any other `Error` instance, or a non-`Error` value. -/
inductive JSError where
  | cancelError (signal : Option Signal)
  | jsError (message : String) (stack : Option String)
  | nonErrorValue (val : String)
deriving DecidableEq, Repr

/-- `error instanceof CancelError`. -/
def JSError.isCancelError : JSError → Bool
  | .cancelError _ => true
  | _ => false

/-- `error instanceof Error` (`CancelError` extends `Error`). -/
def JSError.isInstanceOfError : JSError → Bool
  | .nonErrorValue _ => false
  | _ => true

/-- `error instanceof Error ? error.message : undefined`.  A
`CancelError(signal)`'s message is the signal name it was constructed
with (unreachable in the errored branch, which excludes
`CancelError`). -/
def JSError.message : JSError → Option String
  | .cancelError s => s.map Signal.name
  | .jsError m _ => some m
  | .nonErrorValue _ => none

/-- `error instanceof Error ? error.stack : undefined`. -/
def JSError.stack : JSError → Option String
  | .cancelError _ => none
  | .jsError _ st => st
  | .nonErrorValue _ => none

/-- An atomic occurrence the single-threaded event loop processes
while the race of `collectAsyncMetrics` is pending: the wrapped
promise settling, or an interrupt signal firing the installed
`cancel` handler. -/
inductive Occurrence (R : Type) where
  | innerResolve (v : R)
  | innerReject (e : JSError)
  | interrupt (s : Signal)
deriving DecidableEq, Repr

/-- Settlement state of the two promises racing inside
`collectAsyncMetrics`: the wrapped operation's promise and the
`cancelPromise` from `promiseWithResolvers`.  A promise settles at
most once. -/
structure RacePromises (R : Type) where
  inner : Option (Except JSError R) := none
  cancelP : Option JSError := none
deriving Repr

/-- The `reject` captured by `promiseWithResolvers`: settling an
already-settled promise is a no-op. -/
def settleCancel {R : Type} (st : RacePromises R) (e : JSError) : RacePromises R :=
  match st.cancelP with
  | some _ => st
  | none => { st with cancelP := some e }

/-- Settlement of the wrapped operation's own promise (also
settle-once). -/
def settleInner {R : Type} (st : RacePromises R) (r : Except JSError R) : RacePromises R :=
  match st.inner with
  | some _ => st
  | none => { st with inner := some r }

/-- Effect of one occurrence on the two promises.  An interrupt runs
`cancel`, which rejects `cancelPromise` with
`new CancelError(signal)`. -/
def applyOcc {R : Type} (st : RacePromises R) : Occurrence R → RacePromises R
  | .interrupt s => settleCancel st (.cancelError (some s))
  | .innerResolve v => settleInner st (.ok v)
  | .innerReject e => settleInner st (.error e)

/-- `Promise.race([als.run(..., options.promise), cancelPromise])`:
process the schedule in order; the race settles with the first
constituent to settle, and everything after that first settlement is
discarded.  `none` means the race never settles (the `await` never
resumes). -/
def runRace {R : Type} (st : RacePromises R) : List (Occurrence R) → Option (Except JSError R)
  | [] => none
  | o :: rest =>
    let st' := applyOcc st o
    match st'.inner with
    | some r => some r
    | none =>
      match st'.cancelP with
      | some e => some (.error e)
      | none => runRace st' rest

/-! ## Delivery client (`sparrow.ts`) and the reporter (`metrics.ts`) -/

/-- The outbound payload built by `sparrow.sendEvent`
(`EventPayload` in `sparrow.ts`). -/
structure EventPayload where
  event : EventName
  deviceId : String
  userId : Option String
  timestamp : Int
  properties : EventProperties
deriving DecidableEq, Repr

/-- `sparrow.sendEvent(payload)`: when `SPARROW_SOURCE_KEY` is empty
this is a guaranteed no-op returning `undefined`; otherwise it issues
one POST request and returns its response promise.  The result is the
handle pushed onto `events` (`none` = `undefined`) and the list of
network requests issued. -/
def sparrowSendEvent (sparrowSourceKey : String) (payload : EventPayload) :
    Option EventPayload × List EventPayload :=
  if sparrowSourceKey = "" then (none, [])
  else (some payload, [payload])

/-- The per-reporter values captured once by `createReporter`:
the permission gate, device id, session id, os info, tool version and
the build-time sparrow key. -/
structure ReporterCtx where
  telemetryEnabled : Bool
  deviceId : String
  sessionId : String
  os : OSInfo
  c3Version : String
  sparrowSourceKey : String
deriving DecidableEq, Repr

/-- The reporter's `sendEvent(name, properties)`: gate on the
permission captured at creation; when enabled, build the payload with
ambient fields as defaults (`{ sessionId, os, c3Version,
...properties }` — the caller's properties spread last, overriding)
and push the sparrow handle onto `events`.  Returns the new `events`
list and the network requests issued.  `userId` is looked up afresh on
each call and `now` is the clock read for `timestamp`. -/
def reporterSendEvent (ctx : ReporterCtx) (userId : Option String) (now : Int)
    (events : List (Option EventPayload)) (name : EventName)
    (properties : EventProperties) :
    List (Option EventPayload) × List EventPayload :=
  if ctx.telemetryEnabled = false then (events, [])
  else
    let ambient : EventProperties :=
      { sessionId := some ctx.sessionId, os := some ctx.os, c3Version := some ctx.c3Version }
    let payload : EventPayload :=
      { event := name, deviceId := ctx.deviceId, userId := userId,
        timestamp := now, properties := mergeProps ambient properties }
    let (response, requests) := sparrowSendEvent ctx.sparrowSourceKey payload
    (events ++ [response], requests)

/-- The options record of `collectAsyncMetrics`.  The wrapped thunk
itself is represented by the schedule of occurrences passed to the
run, so only its static configuration lives here. -/
structure CollectOptions where
  eventPrefix : EventSubject
  startedProps : EventProperties
  disableTelemetry : Bool := false
deriving DecidableEq, Repr

/-- `collectAsyncMetrics(options)`: emit the started event, install
the signal handlers, race the wrapped promise against `cancelPromise`,
then dispatch exactly one of completed / cancelled / errored and
re-surface the race outcome to the caller.

Inputs beyond the options: `startTime` is the `Date.now()` read at
entry, `endTime` the `Date.now()` read when the terminal event is
composed, `additional` the final contents of `additionalProperties`
(what the operation contributed via `setEventProperty` per event
name), and `sched` the interleaving of inner settlement and
interrupts.

Output: the list of `sendEvent` invocations made (name and
properties, in order), and the outcome re-surfaced to the caller
(`none` when the race never settles and the call stays pending;
`some (.ok v)` resolve, `some (.error e)` re-raise). -/
def collectAsyncMetrics {R : Type} (options : CollectOptions)
    (startTime endTime : Int) (additional : EventName → EventProperties)
    (sched : List (Occurrence R)) :
    List (EventName × EventProperties) × Option (Except JSError R) :=
  let startedEvents :=
    if options.disableTelemetry then []
    else [(⟨options.eventPrefix, .started⟩, options.startedProps)]
  match runRace {} sched with
  | none => (startedEvents, none)
  | some (.ok result) =>
    let name : EventName := ⟨options.eventPrefix, .completed⟩
    let terminal :=
      if options.disableTelemetry then []
      else [(name,
        { mergeProps options.startedProps (additional name) with
            durationMs := some (endTime - startTime) })]
    (startedEvents ++ terminal, some (.ok result))
  | some (.error e) =>
    let durationMs := endTime - startTime
    if e.isCancelError then
      let name : EventName := ⟨options.eventPrefix, .cancelled⟩
      let terminal :=
        if options.disableTelemetry then []
        else [(name,
          { mergeProps options.startedProps (additional name) with
              durationMs := some durationMs })]
      (startedEvents ++ terminal, some (.error e))
    else
      let name : EventName := ⟨options.eventPrefix, .errored⟩
      let terminal :=
        if options.disableTelemetry then []
        else [(name,
          { mergeProps options.startedProps (additional name) with
              durationMs := some durationMs,
              error := some { message := e.message, stack := e.stack } })]
      (startedEvents ++ terminal, some (.error e))

/-- `createReporter()` (initialization part): read the metrics config
once, capture the permission via `getC3Permission` (persisting the
default record when absent), then obtain the device id via
`getDeviceId` (which re-reads the config file and persists a fresh id
when absent).  Returns the captured reporter context and the
resulting file state.  `now` is the clock read for a lazily
initialized permission, `uuid` the `randomUUID()` draw for a missing
device id. -/
def createReporter (now : Int) (uuid sessionId c3Version sparrowSourceKey : String)
    (os : OSInfo) (fc : FileContent) : ReporterCtx × FileContent :=
  let config := readMetricsConfig fc
  let (telemetry, written) := getC3Permission now config
  let fc1 := match written with
    | some c => writeMetricsConfig c
    | none => fc
  let (deviceId, fc2, _) := getDeviceId uuid fc1
  ({ telemetryEnabled := telemetry.enabled, deviceId := deviceId,
     sessionId := sessionId, os := os, c3Version := c3Version,
     sparrowSourceKey := sparrowSourceKey }, fc2)

/-! ## Theorems -/

/-- C9: `readMetricsConfig` never signals an error to its caller: any
failure of the underlying read/parse pipeline (missing file, invalid
JSON) yields the empty record, and a successful parse yields exactly
the parsed record. -/
theorem readMetricsConfig_never_fails (fc : FileContent) :
    (∀ e, readMetricsConfigE fc = .error e → readMetricsConfig fc = {}) ∧
    (∀ c, readMetricsConfigE fc = .ok c → readMetricsConfig fc = c) ∧
    readMetricsConfig .absent = {} ∧
    readMetricsConfig (.present .invalidJson) = {} := by
  refine ⟨?_, ?_, rfl, rfl⟩ <;> intro x h <;>
    cases fc with
    | absent => simp_all [readMetricsConfig, readMetricsConfigE, readFileSync]
    | present raw =>
      cases raw <;>
        simp_all [readMetricsConfig, readMetricsConfigE, readFileSync, parseMetricsJson,
          Except.bind]

/-- C9 witness: the specification evaluated on a corrupt file and on a
valid file. -/
theorem readMetricsConfig_never_fails_witness :
    readMetricsConfig (.present .invalidJson) = {} ∧
    readMetricsConfig (.present (.validJson { deviceId := some "d1" })) =
      { deviceId := some "d1" } :=
  ⟨(readMetricsConfig_never_fails (.present .invalidJson)).1 .parseError rfl,
   (readMetricsConfig_never_fails (.present (.validJson { deviceId := some "d1" }))).2.1
     { deviceId := some "d1" } rfl⟩

/-- C5: `updateC3Pemission` with the value already stored is a no-op
(the file, hence the stored date, is untouched and no write occurs);
with a different value (or no stored record) it writes a record whose
`date` is the current clock reading — so the stored date tracks the
last change of `enabled`. -/
theorem updateC3Pemission_idempotent (now : Int) (enabled : Bool) (fc : FileContent) :
    (∀ p, (readMetricsConfig fc).c3permission = some p → p.enabled = enabled →
      updateC3Pemission now enabled fc = (fc, false)) ∧
    ((readMetricsConfig fc).c3permission.map PermissionRecord.enabled ≠ some enabled →
      updateC3Pemission now enabled fc =
        (writeMetricsConfig
          { readMetricsConfig fc with
              c3permission := some { enabled := enabled, date := now } }, true)) := by
  constructor
  · intro p hp he
    simp [updateC3Pemission, hp, he]
  · intro hne
    match hcp : (readMetricsConfig fc).c3permission with
    | none => simp [updateC3Pemission, hcp, initializeC3Permission]
    | some p =>
      have hpe : p.enabled ≠ enabled := by
        intro h
        exact hne (by simp [hcp, h])
      simp [updateC3Pemission, hcp, hpe, initializeC3Permission]

/-- C5 witness: re-setting a stored `true` leaves the file alone;
setting `false` afterwards writes a record dated with the new clock
reading. -/
theorem updateC3Pemission_idempotent_witness :
    updateC3Pemission 9 true
        (writeMetricsConfig { c3permission := some { enabled := true, date := 5 } }) =
      (writeMetricsConfig { c3permission := some { enabled := true, date := 5 } }, false) ∧
    updateC3Pemission 9 false
        (writeMetricsConfig { c3permission := some { enabled := true, date := 5 } }) =
      (writeMetricsConfig { c3permission := some { enabled := false, date := 9 } }, true) :=
  ⟨(updateC3Pemission_idempotent 9 true
      (writeMetricsConfig { c3permission := some { enabled := true, date := 5 } })).1
      { enabled := true, date := 5 } rfl rfl,
   (updateC3Pemission_idempotent 9 false
      (writeMetricsConfig { c3permission := some { enabled := true, date := 5 } })).2
      (by decide)⟩

/-- C6: starting from an absent config file, `getDeviceId` generates
an id, writes it, and returns the same id on the second call with no
further write; when the stored config already holds a device id, that
id is returned and no write occurs. -/
theorem getDeviceId_stable (u1 u2 d : String) (c : MetricsConfigFile)
    (hd : c.deviceId = some d) :
    ((getDeviceId u2 (getDeviceId u1 .absent).2.1).1 = (getDeviceId u1 .absent).1 ∧
     (getDeviceId u1 .absent).1 = u1 ∧
     (getDeviceId u1 .absent).2.2 = true ∧
     (getDeviceId u2 (getDeviceId u1 .absent).2.1).2.2 = false ∧
     (getDeviceId u2 (getDeviceId u1 .absent).2.1).2.1 = (getDeviceId u1 .absent).2.1) ∧
    getDeviceId u1 (.present (.validJson c)) = (d, .present (.validJson c), false) := by
  constructor
  · exact ⟨rfl, rfl, rfl, rfl, rfl⟩
  · have hread : readMetricsConfig (.present (.validJson c)) = c := rfl
    simp [getDeviceId, hread, hd]

/-- C6 witness: the theorem evaluated at concrete uuid draws and a
concrete stored id. -/
theorem getDeviceId_stable_witness :
    ((getDeviceId "u2" (getDeviceId "u1" .absent).2.1).1 = (getDeviceId "u1" .absent).1 ∧
     (getDeviceId "u1" .absent).1 = "u1" ∧
     (getDeviceId "u1" .absent).2.2 = true ∧
     (getDeviceId "u2" (getDeviceId "u1" .absent).2.1).2.2 = false ∧
     (getDeviceId "u2" (getDeviceId "u1" .absent).2.1).2.1 = (getDeviceId "u1" .absent).2.1) ∧
    getDeviceId "u1" (.present (.validJson { deviceId := some "d0" })) =
      ("d0", .present (.validJson { deviceId := some "d0" }), false) :=
  getDeviceId_stable "u1" "u2" "d0" { deviceId := some "d0" } rfl

/-- C7: with the creation-time permission disabled, the reporter's
`sendEvent` returns immediately: the pending `events` list is exactly
what it was and no network request is issued. -/
theorem reporterSendEvent_disabled_noop (ctx : ReporterCtx) (userId : Option String)
    (now : Int) (events : List (Option EventPayload)) (name : EventName)
    (properties : EventProperties) (h : ctx.telemetryEnabled = false) :
    reporterSendEvent ctx userId now events name properties = (events, []) := by
  simp [reporterSendEvent, h]

/-- C7 witness: a disabled reporter sending a session-started event
changes nothing. -/
theorem reporterSendEvent_disabled_noop_witness :
    reporterSendEvent
        { telemetryEnabled := false, deviceId := "d1", sessionId := "s1",
          os := { platform := "cf", arch := "test" }, c3Version := "1.2.3",
          sparrowSourceKey := "k" }
        (some "u1") 0 [] ⟨.c3session, .started⟩ {} = ([], []) :=
  reporterSendEvent_disabled_noop
    { telemetryEnabled := false, deviceId := "d1", sessionId := "s1",
      os := { platform := "cf", arch := "test" }, c3Version := "1.2.3",
      sparrowSourceKey := "k" }
    (some "u1") 0 [] ⟨.c3session, .started⟩ {} rfl

/-- C8 counterexample: running the `status` action on an absent config
file does **not** leave the file unchanged — `getC3Permission` lazily
initializes the permission record and persists it. -/
theorem runTelemetryStatus_mutates_cex :
    (runTelemetryStatus 0 .absent).1 =
      writeMetricsConfig { c3permission := some { enabled := true, date := 0 } } ∧
    (runTelemetryStatus 0 .absent).1 ≠ .absent := by
  constructor
  · rfl
  · decide

/-- C8 (amended): `status` reports the current permission value; it
leaves the config file unchanged whenever a `c3permission` record is
already stored, but on a store without one (absent, corrupt, or
missing the record) it initializes and persists the default enabled
record. -/
theorem runTelemetryStatus_spec (now : Int) (fc : FileContent) :
    (∀ p, (readMetricsConfig fc).c3permission = some p →
      runTelemetryStatus now fc = (fc, p.enabled)) ∧
    ((readMetricsConfig fc).c3permission = none →
      runTelemetryStatus now fc =
        (writeMetricsConfig
          { readMetricsConfig fc with
              c3permission := some { enabled := true, date := now } }, true)) := by
  constructor
  · intro p hp
    simp [runTelemetryStatus, getC3Permission, hp]
  · intro hp
    simp [runTelemetryStatus, getC3Permission, hp, initializeC3Permission]

/-- C8 witness: on a stored disabled record, `status` reports
`false` and leaves the file untouched; on an absent file it persists
the default record. -/
theorem runTelemetryStatus_spec_witness :
    runTelemetryStatus 3
        (writeMetricsConfig { c3permission := some { enabled := false, date := 1 } }) =
      (writeMetricsConfig { c3permission := some { enabled := false, date := 1 } }, false) ∧
    runTelemetryStatus 3 .absent =
      (writeMetricsConfig { c3permission := some { enabled := true, date := 3 } }, true) :=
  ⟨(runTelemetryStatus_spec 3
      (writeMetricsConfig { c3permission := some { enabled := false, date := 1 } })).1
      { enabled := false, date := 1 } rfl,
   (runTelemetryStatus_spec 3 .absent).2 rfl⟩

/-- C1: for every nonempty interleaving of the wrapped operation's
settlement and external interrupts, `collectAsyncMetrics` (with its
telemetry not disabled) dispatches exactly one terminal event, and it
comes strictly after the started event: the invocation trace is the
started event followed by exactly one terminal event. -/
theorem collectAsyncMetrics_one_terminal {R : Type} (options : CollectOptions)
    (startTime endTime : Int) (additional : EventName → EventProperties)
    (sched : List (Occurrence R))
    (htel : options.disableTelemetry = false) (hsched : sched ≠ []) :
    ∃ t : EventName × EventProperties,
      (collectAsyncMetrics options startTime endTime additional sched).1 =
        [(⟨options.eventPrefix, .started⟩, options.startedProps), t] ∧
      t.1.stage.isTerminal = true := by
  match sched with
  | [] => exact absurd rfl hsched
  | o :: rest =>
    cases o with
    | innerResolve v =>
      refine ⟨(⟨options.eventPrefix, .completed⟩,
        { mergeProps options.startedProps (additional ⟨options.eventPrefix, .completed⟩) with
            durationMs := some (endTime - startTime) }), ?_, rfl⟩
      simp [collectAsyncMetrics, runRace, applyOcc, settleInner, htel]
    | interrupt s =>
      refine ⟨(⟨options.eventPrefix, .cancelled⟩,
        { mergeProps options.startedProps (additional ⟨options.eventPrefix, .cancelled⟩) with
            durationMs := some (endTime - startTime) }), ?_, rfl⟩
      simp [collectAsyncMetrics, runRace, applyOcc, settleCancel, htel, JSError.isCancelError]
    | innerReject e =>
      cases he : e.isCancelError with
      | true =>
        refine ⟨(⟨options.eventPrefix, .cancelled⟩,
          { mergeProps options.startedProps (additional ⟨options.eventPrefix, .cancelled⟩) with
              durationMs := some (endTime - startTime) }), ?_, rfl⟩
        simp [collectAsyncMetrics, runRace, applyOcc, settleInner, htel, he]
      | false =>
        refine ⟨(⟨options.eventPrefix, .errored⟩,
          { mergeProps options.startedProps (additional ⟨options.eventPrefix, .errored⟩) with
              durationMs := some (endTime - startTime),
              error := some { message := e.message, stack := e.stack } }), ?_, rfl⟩
        simp [collectAsyncMetrics, runRace, applyOcc, settleInner, htel, he]

/-- C1 witness: a run whose wrapped promise resolves produces the
started event and exactly one terminal event. -/
theorem collectAsyncMetrics_one_terminal_witness :
    ∃ t : EventName × EventProperties,
      (collectAsyncMetrics (R := Nat)
          { eventPrefix := .c3session, startedProps := {} }
          0 5 (fun _ => {}) [.innerResolve 3]).1 =
        [(⟨.c3session, .started⟩, ({} : EventProperties)), t] ∧
      t.1.stage.isTerminal = true :=
  collectAsyncMetrics_one_terminal
    { eventPrefix := .c3session, startedProps := {} } 0 5 (fun _ => {})
    [.innerResolve 3] rfl (List.cons_ne_nil _ _)

/-- C2 counterexample: the completed event's `durationMs` is
`endTime - startTime` with **no** clamping: when the clock reads 4 at
settlement after reading 10 at start, the dispatched value is `-6`,
which is negative — refuting "non-negative ... clamped to zero if the
clock difference would be negative". -/
theorem collectAsyncMetrics_duration_not_clamped_cex :
    ((collectAsyncMetrics (R := Nat)
        { eventPrefix := .c3session, startedProps := {} }
        10 4 (fun _ => {}) [.innerResolve 3]).1.map
      fun ev => (ev.1, ev.2.durationMs)) =
      [(⟨.c3session, .started⟩, none), (⟨.c3session, .completed⟩, some (-6))] ∧
    ¬ (0 : Int) ≤ (-6 : Int) := by
  exact ⟨by decide, by decide⟩

/-- C2 (amended): if the wrapped promise resolves first with `v`, the
terminal event is `completed` with `durationMs = endTime - startTime`
(the raw clock difference, with no clamping), which is non-negative
whenever the clock does not step backwards, and the call resolves
with `v`. -/
theorem collectAsyncMetrics_completed_spec {R : Type} (options : CollectOptions)
    (startTime endTime : Int) (additional : EventName → EventProperties)
    (rest : List (Occurrence R)) (v : R)
    (htel : options.disableTelemetry = false) (hclock : startTime ≤ endTime) :
    (collectAsyncMetrics options startTime endTime additional
        (.innerResolve v :: rest)).1 =
      [(⟨options.eventPrefix, .started⟩, options.startedProps),
       (⟨options.eventPrefix, .completed⟩,
        { mergeProps options.startedProps (additional ⟨options.eventPrefix, .completed⟩) with
            durationMs := some (endTime - startTime) })] ∧
    (collectAsyncMetrics options startTime endTime additional
        (.innerResolve v :: rest)).2 = some (.ok v) ∧
    0 ≤ endTime - startTime := by
  refine ⟨?_, ?_, by omega⟩ <;>
    simp [collectAsyncMetrics, runRace, applyOcc, settleInner, htel]

/-- C2 witness: the amended statement evaluated on a concrete resolving
run with a forward-moving clock. -/
theorem collectAsyncMetrics_completed_spec_witness :
    (collectAsyncMetrics (R := Nat)
        { eventPrefix := .c3session, startedProps := {} }
        0 1234 (fun _ => {}) [.innerResolve 7]).1 =
      [(⟨.c3session, .started⟩, ({} : EventProperties)),
       (⟨.c3session, .completed⟩,
        { mergeProps {} ({} : EventProperties) with durationMs := some 1234 })] ∧
    (collectAsyncMetrics (R := Nat)
        { eventPrefix := .c3session, startedProps := {} }
        0 1234 (fun _ => {}) [.innerResolve 7]).2 = some (.ok 7) ∧
    (0 : Int) ≤ 1234 - 0 := by
  have h := collectAsyncMetrics_completed_spec (R := Nat)
    { eventPrefix := .c3session, startedProps := {} } 0 1234 (fun _ => {})
    [] 7 rfl (by decide)
  simpa using h

/-- C3 counterexample: when a SIGINT interrupt wins the race, the
terminal event is `cancelled` but carries **no** `signal` property
(the payload is built from the started props, contributed cancelled
props and `durationMs` only) — refuting "with a `signal` property
equal to the interrupt's name". -/
theorem collectAsyncMetrics_cancelled_no_signal_cex :
    ((collectAsyncMetrics (R := Nat)
        { eventPrefix := .c3session, startedProps := {} }
        0 7 (fun _ => {}) [.interrupt .SIGINT, .innerResolve 3]).1.map
      fun ev => (ev.1, ev.2.signal)) =
      [(⟨.c3session, .started⟩, none), (⟨.c3session, .cancelled⟩, none)] ∧
    (none : Option Signal) ≠ some .SIGINT := by
  exact ⟨by decide, by decide⟩

/-- C3 (amended): if an interrupt wins the race, the terminal event is
`cancelled`; its properties (merged started and contributed cancelled
props plus `durationMs`) contain no `signal` key — the signal name
travels only in the `CancelError` re-raised to the caller — and any
later settlement of the wrapped promise (`rest` is arbitrary)
produces no additional event. -/
theorem collectAsyncMetrics_interrupt_spec {R : Type} (options : CollectOptions)
    (startTime endTime : Int) (additional : EventName → EventProperties)
    (rest : List (Occurrence R)) (s : Signal)
    (htel : options.disableTelemetry = false)
    (hsig1 : options.startedProps.signal = none)
    (hsig2 : (additional ⟨options.eventPrefix, .cancelled⟩).signal = none) :
    (collectAsyncMetrics options startTime endTime additional
        (.interrupt s :: rest)).1 =
      [(⟨options.eventPrefix, .started⟩, options.startedProps),
       (⟨options.eventPrefix, .cancelled⟩,
        { mergeProps options.startedProps (additional ⟨options.eventPrefix, .cancelled⟩) with
            durationMs := some (endTime - startTime) })] ∧
    ({ mergeProps options.startedProps (additional ⟨options.eventPrefix, .cancelled⟩) with
        durationMs := some (endTime - startTime) } : EventProperties).signal = none ∧
    (collectAsyncMetrics options startTime endTime additional
        (.interrupt s :: rest)).2 = some (.error (.cancelError (some s))) := by
  refine ⟨?_, ?_, ?_⟩
  · simp [collectAsyncMetrics, runRace, applyOcc, settleCancel, htel, JSError.isCancelError]
  · simp [mergeProps, hsig1, hsig2]
  · simp [collectAsyncMetrics, runRace, applyOcc, settleCancel, htel, JSError.isCancelError]

/-- C3 witness: a SIGTERM interrupt followed by a late resolution of
the wrapped promise yields started then cancelled (signal-free), and
re-raises the cancellation marker. -/
theorem collectAsyncMetrics_interrupt_spec_witness :
    (collectAsyncMetrics (R := Nat)
        { eventPrefix := .c3session, startedProps := {} }
        0 9 (fun _ => {}) [.interrupt .SIGTERM, .innerResolve 4]).1 =
      [(⟨.c3session, .started⟩, ({} : EventProperties)),
       (⟨.c3session, .cancelled⟩,
        { mergeProps {} ({} : EventProperties) with durationMs := some 9 })] ∧
    ({ mergeProps {} ({} : EventProperties) with
        durationMs := some (9 : Int) } : EventProperties).signal = none ∧
    (collectAsyncMetrics (R := Nat)
        { eventPrefix := .c3session, startedProps := {} }
        0 9 (fun _ => {}) [.interrupt .SIGTERM, .innerResolve 4]).2 =
      some (.error (.cancelError (some .SIGTERM))) := by
  have h := collectAsyncMetrics_interrupt_spec (R := Nat)
    { eventPrefix := .c3session, startedProps := {} } 0 9 (fun _ => {})
    [.innerResolve 4] .SIGTERM rfl rfl rfl
  simpa using h

/-- C4: if the wrapped promise rejects first with a non-`CancelError`
value, the terminal event is `errored` with `error.message` the
rejection's message (`none`, i.e. undefined, when the rejection is
not an `Error` instance), and the original rejection is re-raised
unchanged. -/
theorem collectAsyncMetrics_errored_spec {R : Type} (options : CollectOptions)
    (startTime endTime : Int) (additional : EventName → EventProperties)
    (rest : List (Occurrence R)) (e : JSError)
    (htel : options.disableTelemetry = false) (hce : e.isCancelError = false) :
    (collectAsyncMetrics options startTime endTime additional
        (.innerReject e :: rest)).1 =
      [(⟨options.eventPrefix, .started⟩, options.startedProps),
       (⟨options.eventPrefix, .errored⟩,
        { mergeProps options.startedProps (additional ⟨options.eventPrefix, .errored⟩) with
            durationMs := some (endTime - startTime),
            error := some { message := e.message, stack := e.stack } })] ∧
    (collectAsyncMetrics options startTime endTime additional
        (.innerReject e :: rest)).2 = some (.error e) ∧
    (∀ m st, e = .jsError m st → e.message = some m) ∧
    (e.isInstanceOfError = false → e.message = none) := by
  refine ⟨?_, ?_, ?_, ?_⟩
  · simp [collectAsyncMetrics, runRace, applyOcc, settleInner, htel, hce]
  · simp [collectAsyncMetrics, runRace, applyOcc, settleInner, htel, hce]
  · intro m st h
    subst h
    rfl
  · intro h
    cases e <;> simp_all [JSError.isInstanceOfError, JSError.message]

/-- C4 witness: a rejection with an ordinary `Error` yields the errored
event carrying that message and is re-raised to the caller. -/
theorem collectAsyncMetrics_errored_spec_witness :
    (collectAsyncMetrics (R := Nat)
        { eventPrefix := .c3session, startedProps := {} }
        0 11 (fun _ => {}) [.innerReject (.jsError "test error" none)]).1 =
      [(⟨.c3session, .started⟩, ({} : EventProperties)),
       (⟨.c3session, .errored⟩,
        { mergeProps {} ({} : EventProperties) with
            durationMs := some 11,
            error := some { message := some "test error", stack := none } })] ∧
    (collectAsyncMetrics (R := Nat)
        { eventPrefix := .c3session, startedProps := {} }
        0 11 (fun _ => {}) [.innerReject (.jsError "test error" none)]).2 =
      some (.error (.jsError "test error" none)) := by
  have h := collectAsyncMetrics_errored_spec (R := Nat)
    { eventPrefix := .c3session, startedProps := {} } 0 11 (fun _ => {})
    [] (.jsError "test error" none) rfl rfl
  exact ⟨by simpa using h.1, by simpa using h.2.1⟩

/-- Writing then reading the metrics config is the identity. -/
theorem readMetricsConfig_writeMetricsConfig (c : MetricsConfigFile) :
    readMetricsConfig (writeMetricsConfig c) = c := rfl

/-- After `createReporter` finishes its initialization, the config
file stores exactly the permission record the reporter captured
(lazily initialized and persisted when it was absent), and the
captured gate is that record's `enabled` flag. -/
theorem createReporter_persists_permission (now : Int)
    (uuid sessionId c3Version sparrowSourceKey : String) (os : OSInfo)
    (fc : FileContent) :
    (readMetricsConfig
        (createReporter now uuid sessionId c3Version sparrowSourceKey os fc).2).c3permission =
      some (getC3Permission now (readMetricsConfig fc)).1 ∧
    (createReporter now uuid sessionId c3Version sparrowSourceKey os fc).1.telemetryEnabled =
      (getC3Permission now (readMetricsConfig fc)).1.enabled := by
  cases hcp : (readMetricsConfig fc).c3permission with
  | some p =>
    cases hdev : (readMetricsConfig fc).deviceId with
    | none =>
      constructor <;>
        simp [createReporter, getC3Permission, getDeviceId, hcp, hdev,
          readMetricsConfig_writeMetricsConfig]
    | some d =>
      constructor <;>
        simp [createReporter, getC3Permission, getDeviceId, hcp, hdev,
          readMetricsConfig_writeMetricsConfig]
  | none =>
    cases hdev : (readMetricsConfig fc).deviceId with
    | none =>
      constructor <;>
        simp [createReporter, getC3Permission, getDeviceId, hcp, hdev,
          initializeC3Permission, readMetricsConfig_writeMetricsConfig]
    | some d =>
      constructor <;>
        simp [createReporter, getC3Permission, getDeviceId, hcp, hdev,
          initializeC3Permission, readMetricsConfig_writeMetricsConfig]

/-- C10: the permission gate of a reporter is fixed when
`createReporter` runs.  Flipping the persisted permission afterwards
with `updateC3Pemission` changes the stored record (first conjunct:
the file then stores the opposite of the captured gate), yet the
reporter's `sendEvent` still follows the creation-time gate: created
disabled it never sends, created enabled it still pushes a delivery. -/
theorem reporter_gate_fixed_at_creation (now now2 t : Int)
    (uuid sessionId c3Version sparrowSourceKey : String) (os : OSInfo)
    (fc : FileContent) (userId : Option String)
    (events : List (Option EventPayload)) (name : EventName)
    (props : EventProperties) :
    ((readMetricsConfig
        (updateC3Pemission now2
          (!(createReporter now uuid sessionId c3Version sparrowSourceKey os fc).1.telemetryEnabled)
          (createReporter now uuid sessionId c3Version sparrowSourceKey os fc).2).1).c3permission.map
        PermissionRecord.enabled =
      some (!(createReporter now uuid sessionId c3Version sparrowSourceKey os fc).1.telemetryEnabled)) ∧
    ((createReporter now uuid sessionId c3Version sparrowSourceKey os fc).1.telemetryEnabled = false →
      reporterSendEvent
          (createReporter now uuid sessionId c3Version sparrowSourceKey os fc).1
          userId t events name props = (events, [])) ∧
    ((createReporter now uuid sessionId c3Version sparrowSourceKey os fc).1.telemetryEnabled = true →
      (reporterSendEvent
          (createReporter now uuid sessionId c3Version sparrowSourceKey os fc).1
          userId t events name props).1.length = events.length + 1) := by
  obtain ⟨h1, h2⟩ :=
    createReporter_persists_permission now uuid sessionId c3Version sparrowSourceKey os fc
  refine ⟨?_, ?_, ?_⟩
  · have hne : ¬((getC3Permission now (readMetricsConfig fc)).1.enabled =
        !(createReporter now uuid sessionId c3Version sparrowSourceKey os fc).1.telemetryEnabled) := by
      rw [← h2]
      cases (createReporter now uuid sessionId c3Version sparrowSourceKey os fc).1.telemetryEnabled <;>
        simp
    simp [updateC3Pemission, h1, hne, initializeC3Permission,
      readMetricsConfig_writeMetricsConfig]
  · intro h
    simp [reporterSendEvent, h]
  · intro h
    simp [reporterSendEvent, h]

/-- C10 witness: a reporter created while the stored permission is
enabled; after `updateC3Pemission` flips the stored record to
disabled, its `sendEvent` still pushes a delivery. -/
theorem reporter_gate_fixed_at_creation_witness :
    ((readMetricsConfig
        (updateC3Pemission 2
          (!(createReporter 1 "u" "s" "v" "k" { platform := "cf", arch := "test" }
              (writeMetricsConfig
                { c3permission := some { enabled := true, date := 0 },
                  deviceId := some "d" })).1.telemetryEnabled)
          (createReporter 1 "u" "s" "v" "k" { platform := "cf", arch := "test" }
              (writeMetricsConfig
                { c3permission := some { enabled := true, date := 0 },
                  deviceId := some "d" })).2).1).c3permission.map
        PermissionRecord.enabled =
      some (!(createReporter 1 "u" "s" "v" "k" { platform := "cf", arch := "test" }
          (writeMetricsConfig
            { c3permission := some { enabled := true, date := 0 },
              deviceId := some "d" })).1.telemetryEnabled)) ∧
    (reporterSendEvent
        (createReporter 1 "u" "s" "v" "k" { platform := "cf", arch := "test" }
            (writeMetricsConfig
              { c3permission := some { enabled := true, date := 0 },
                deviceId := some "d" })).1
        (some "uid") 3 [] ⟨.c3session, .started⟩ {}).1.length = 1 := by
  have h := reporter_gate_fixed_at_creation 1 2 3 "u" "s" "v" "k"
    { platform := "cf", arch := "test" }
    (writeMetricsConfig
      { c3permission := some { enabled := true, date := 0 }, deviceId := some "d" })
    (some "uid") [] ⟨.c3session, .started⟩ {}
  exact ⟨h.1, by simpa using h.2.2 rfl⟩

end C3Metrics
